import Mathlib

/-!
Shallow embedding of the BURNWISE mathematical core
(`verify-math-algorithms.py`): the Gaussian plume dispersion model
(`GaussianPlumeVerifier`) and the simulated-annealing burn scheduler
(`SimulatedAnnealingVerifier`), together with theorems settling the
specification claims about them.

Modelling conventions:
* Python floats are modelled as real numbers `ℝ`; timestamps
  (`datetime` values) as rational seconds since the epoch `ℚ`
  (Python datetimes have microsecond resolution, so every reachable
  timestamp is rational).
* Python `**` on floats returns a complex number when the base is
  negative and the exponent is not an integer, and raises
  `ZeroDivisionError` on `0.0 ** negative`; both failure modes are
  modelled as `none` (`pyPow`).
* `timedelta.seconds` normalises the duration into days plus a
  seconds-of-day component in `[0, 86400)` and returns the integer
  seconds component; `pySeconds` reproduces this.
* Fallible evaluation (complex results, `ZeroDivisionError`) is
  threaded through `Option`.
-/

open scoped Classical

/-- Pasquill-Gifford stability classes A-F (dictionary keys
`'A'..'F'` in the source). -/
inductive SC where
  | A | B | C | D | E | F
deriving DecidableEq, Repr

/-- One row of `stability_params`: the six coefficients
`{a, b, c, d, f, g}`. -/
structure PG where
  a : ℝ
  b : ℝ
  c : ℝ
  d : ℝ
  f : ℝ
  g : ℝ

/-- The `self.stability_params` table of `GaussianPlumeVerifier.__init__`. -/
noncomputable def stability_params : SC → PG
  | SC.A => ⟨213, 0.894, 440.8, 1.041, 9.27, 0.459⟩
  | SC.B => ⟨156, 0.894, 106.6, 1.149, 3.3, 0.382⟩
  | SC.C => ⟨104, 0.894, 61.0, 0.911, 0.0, 0.0⟩
  | SC.D => ⟨68, 0.894, 33.2, 0.725, -1.7, -0.031⟩
  | SC.E => ⟨50.5, 0.894, 22.8, 0.678, -1.3, -0.031⟩
  | SC.F => ⟨34, 0.894, 14.35, 0.740, -0.35, -0.048⟩

/-- `p` is an integer-valued exponent (Python `**` stays real on a
negative base exactly when the float exponent is integral). -/
def isIntExp (p : ℝ) : Prop := ∃ n : ℤ, (n : ℝ) = p

/-- Python float `x ** p`: raises `ZeroDivisionError` on
`0 ** negative` (`none`), returns a non-real complex number for a
negative base with a non-integral exponent (`none`), and otherwise
agrees with the real power `Real.rpow` (for a negative base with an
integral exponent, `Real.rpow` equals the usual integer power, as
Python does). -/
noncomputable def pyPow (x p : ℝ) : Option ℝ :=
  if x = 0 ∧ p < 0 then none
  else if x < 0 ∧ ¬ isIntExp p then none
  else some (x ^ p)

/-- `GaussianPlumeVerifier.calculate_dispersion_coefficients`:
σy = a·x_km^b; σz = c·x_km^d for classes E, F and
c·x_km^d·(1 + f·x_km)^g otherwise, with x_km = x_meters / 1000. -/
noncomputable def calculate_dispersion_coefficients (x_meters : ℝ) (sc : SC) :
    Option (ℝ × ℝ) :=
  let p := stability_params sc
  let x_km := x_meters / 1000
  (pyPow x_km p.b).bind fun sy0 =>
    let sigma_y := p.a * sy0
    if sc = SC.E ∨ sc = SC.F then
      (pyPow x_km p.d).bind fun sz0 => some (sigma_y, p.c * sz0)
    else
      (pyPow x_km p.d).bind fun sz0 =>
        (pyPow (1 + p.f * x_km) p.g).bind fun w =>
          some (sigma_y, p.c * sz0 * w)

/-- `GaussianPlumeVerifier.gaussian_plume`.  Returns `some 0` for
`x ≤ 0`, propagates a failing dispersion computation, models the
`ZeroDivisionError` of the division when `2π·u·σy·σz = 0` as `none`,
and otherwise returns `C * 1e6` exactly as the source does. -/
noncomputable def gaussian_plume (Q u H x y z : ℝ) (sc : SC) : Option ℝ :=
  if x ≤ 0 then some 0
  else
    (calculate_dispersion_coefficients x sc).bind fun s =>
      let sigma_y := s.1
      let sigma_z := s.2
      let exp_y := if 0 < sigma_y then Real.exp (-0.5 * (y / sigma_y) ^ 2) else 0
      let exp_z1 := if 0 < sigma_z then Real.exp (-0.5 * ((z - H) / sigma_z) ^ 2) else 0
      let exp_z2 := if 0 < sigma_z then Real.exp (-0.5 * ((z + H) / sigma_z) ^ 2) else 0
      if 0 < sigma_y ∧ 0 < sigma_z then
        if 2 * Real.pi * u * sigma_y * sigma_z = 0 then none
        else some (Q / (2 * Real.pi * u * sigma_y * sigma_z) * exp_y
          * (exp_z1 + exp_z2) * 1000000)
      else some (0 * 1000000)

/-! ### Basic evaluation lemmas for `pyPow` and the dispersion table -/

theorem pyPow_of_nonneg {x p : ℝ} (hx : 0 ≤ x) (hp : 0 ≤ p) :
    pyPow x p = some (x ^ p) := by
  unfold pyPow
  rw [if_neg (by rintro ⟨-, h⟩; exact absurd h (not_lt.mpr hp)),
    if_neg (by rintro ⟨h, -⟩; exact absurd h (not_lt.mpr hx))]

theorem pyPow_of_pos {x p : ℝ} (hx : 0 < x) :
    pyPow x p = some (x ^ p) := by
  unfold pyPow
  rw [if_neg (by rintro ⟨h, -⟩; exact absurd h hx.ne'),
    if_neg (by rintro ⟨h, -⟩; exact absurd h (not_lt.mpr hx.le))]

theorem pyPow_one (p : ℝ) : pyPow 1 p = some 1 := by
  rw [pyPow_of_pos one_pos, Real.one_rpow]

/-- No integer equals the exponent `-0.031` of stability class D. -/
theorem not_isIntExp_D_g : ¬ isIntExp (-0.031 : ℝ) := by
  rintro ⟨n, hn⟩
  have h1 : ((-1 : ℤ) : ℝ) < (n : ℝ) := by rw [hn]; norm_num
  have h2 : ((n : ℤ) : ℝ) < ((0 : ℤ) : ℝ) := by rw [hn]; norm_num
  rw [Int.cast_lt] at h1 h2
  omega

/-- The negative-base, non-integral-exponent case of Python `**`. -/
theorem pyPow_neg_base {x p : ℝ} (hx : x < 0) (hp : ¬ isIntExp p) :
    pyPow x p = none := by
  unfold pyPow
  rw [if_neg (by rintro ⟨h, -⟩; exact absurd h (ne_of_lt hx)), if_pos ⟨hx, hp⟩]

/-- Evaluation of the dispersion table at class F, x = 1000 m. -/
theorem calcDisp_F_1000 :
    calculate_dispersion_coefficients 1000 SC.F = some (34, 14.35) := by
  unfold calculate_dispersion_coefficients
  have hx : (1000 : ℝ) / 1000 = 1 := by norm_num
  simp only [stability_params, hx, pyPow_one, Option.some_bind]
  norm_num

/-- Evaluation of the dispersion table at class D, x = 1000 m: the
secondary factor is `(1 - 1.7)^(-0.031) = (-0.7)^(-0.031)`, which
Python computes as a non-real complex number, so the computation
fails. -/
theorem calcDisp_D_1000 :
    calculate_dispersion_coefficients 1000 SC.D = none := by
  unfold calculate_dispersion_coefficients
  have hx : (1000 : ℝ) / 1000 = 1 := by norm_num
  have hbase : (1 : ℝ) + (-1.7) * 1 < 0 := by norm_num
  simp only [stability_params, hx, pyPow_one, Option.some_bind]
  rw [if_neg (by simp), pyPow_neg_base hbase not_isIntExp_D_g]
  rfl

/-- C3 (amended): for stability classes A, B, C, E, F and every
x ≥ 0, and for class D whenever x < 1000/1.7 meters, the dispersion
computation succeeds and both σy and σz are real numbers that are
≥ 0 (and finite, being real).  (For class D at x ≥ 1000/1.7 the
secondary factor has a negative base and a non-integral exponent and
the computation does not produce a real number, see the
counterexample.) -/
theorem calcDisp_defined_nonneg (x : ℝ) (sc : SC) (hx : 0 ≤ x)
    (hD : sc = SC.D → x < 1000 / 1.7) :
    ∃ sy sz, calculate_dispersion_coefficients x sc = some (sy, sz)
      ∧ 0 ≤ sy ∧ 0 ≤ sz := by
  have hxk : (0 : ℝ) ≤ x / 1000 := div_nonneg hx (by norm_num)
  have hrp : ∀ p : ℝ, 0 ≤ (x / 1000) ^ p := fun p => Real.rpow_nonneg hxk p
  have h927 : (0 : ℝ) ≤ 9.27 * (x / 1000) := mul_nonneg (by norm_num) hxk
  have h33 : (0 : ℝ) ≤ 3.3 * (x / 1000) := mul_nonneg (by norm_num) hxk
  cases sc
  case A =>
    simp only [calculate_dispersion_coefficients, stability_params]
    rw [pyPow_of_nonneg hxk (by norm_num : (0:ℝ) ≤ 0.894), Option.some_bind,
      if_neg (by simp), pyPow_of_nonneg hxk (by norm_num : (0:ℝ) ≤ 1.041),
      Option.some_bind,
      pyPow_of_pos (show (0:ℝ) < 1 + 9.27 * (x / 1000) by linarith),
      Option.some_bind]
    exact ⟨_, _, rfl, mul_nonneg (by norm_num) (hrp _),
      mul_nonneg (mul_nonneg (by norm_num) (hrp _))
        (Real.rpow_nonneg (by linarith) _)⟩
  case B =>
    simp only [calculate_dispersion_coefficients, stability_params]
    rw [pyPow_of_nonneg hxk (by norm_num : (0:ℝ) ≤ 0.894), Option.some_bind,
      if_neg (by simp), pyPow_of_nonneg hxk (by norm_num : (0:ℝ) ≤ 1.149),
      Option.some_bind,
      pyPow_of_pos (show (0:ℝ) < 1 + 3.3 * (x / 1000) by linarith),
      Option.some_bind]
    exact ⟨_, _, rfl, mul_nonneg (by norm_num) (hrp _),
      mul_nonneg (mul_nonneg (by norm_num) (hrp _))
        (Real.rpow_nonneg (by linarith) _)⟩
  case C =>
    simp only [calculate_dispersion_coefficients, stability_params]
    rw [pyPow_of_nonneg hxk (by norm_num : (0:ℝ) ≤ 0.894), Option.some_bind,
      if_neg (by simp), pyPow_of_nonneg hxk (by norm_num : (0:ℝ) ≤ 0.911),
      Option.some_bind,
      pyPow_of_pos (show (0:ℝ) < 1 + 0.0 * (x / 1000) by norm_num),
      Option.some_bind]
    exact ⟨_, _, rfl, mul_nonneg (by norm_num) (hrp _),
      mul_nonneg (mul_nonneg (by norm_num) (hrp _))
        (Real.rpow_nonneg (by norm_num) _)⟩
  case D =>
    have hxlt : x < 1000 / 1.7 := hD rfl
    have hbase : (0:ℝ) < 1 + (-1.7) * (x / 1000) := by
      have : x / 1000 < 1 / 1.7 := by linarith
      nlinarith
    simp only [calculate_dispersion_coefficients, stability_params]
    rw [pyPow_of_nonneg hxk (by norm_num : (0:ℝ) ≤ 0.894), Option.some_bind,
      if_neg (by simp), pyPow_of_nonneg hxk (by norm_num : (0:ℝ) ≤ 0.725),
      Option.some_bind, pyPow_of_pos hbase, Option.some_bind]
    exact ⟨_, _, rfl, mul_nonneg (by norm_num) (hrp _),
      mul_nonneg (mul_nonneg (by norm_num) (hrp _))
        (Real.rpow_nonneg hbase.le _)⟩
  case E =>
    simp only [calculate_dispersion_coefficients, stability_params]
    rw [pyPow_of_nonneg hxk (by norm_num : (0:ℝ) ≤ 0.894), Option.some_bind,
      if_pos (by simp), pyPow_of_nonneg hxk (by norm_num : (0:ℝ) ≤ 0.678),
      Option.some_bind]
    exact ⟨_, _, rfl, mul_nonneg (by norm_num) (hrp _),
      mul_nonneg (by norm_num) (hrp _)⟩
  case F =>
    simp only [calculate_dispersion_coefficients, stability_params]
    rw [pyPow_of_nonneg hxk (by norm_num : (0:ℝ) ≤ 0.894), Option.some_bind,
      if_pos (by simp), pyPow_of_nonneg hxk (by norm_num : (0:ℝ) ≤ 0.740),
      Option.some_bind]
    exact ⟨_, _, rfl, mul_nonneg (by norm_num) (hrp _),
      mul_nonneg (by norm_num) (hrp _)⟩

/-- Witness for `calcDisp_defined_nonneg` at x = 100 m, class D. -/
theorem calcDisp_defined_nonneg_witness :
    (0 : ℝ) ≤ 100 ∧ ((100 : ℝ) < 1000 / 1.7) ∧
    ∃ sy sz, calculate_dispersion_coefficients 100 SC.D = some (sy, sz)
      ∧ 0 ≤ sy ∧ 0 ≤ sz :=
  ⟨by norm_num, by norm_num,
    calcDisp_defined_nonneg 100 SC.D (by norm_num) (fun _ => by norm_num)⟩

/-- Evaluation of `gaussian_plume` in the regular case: downwind
receptor, nonzero wind, dispersion computed and positive. -/
theorem gaussian_plume_eval {Q u H x y z sy sz : ℝ} {sc : SC}
    (hx : 0 < x) (hu : u ≠ 0)
    (hd : calculate_dispersion_coefficients x sc = some (sy, sz))
    (hsy : 0 < sy) (hsz : 0 < sz) :
    gaussian_plume Q u H x y z sc =
      some (Q / (2 * Real.pi * u * sy * sz) * Real.exp (-0.5 * (y / sy) ^ 2)
        * (Real.exp (-0.5 * ((z - H) / sz) ^ 2)
          + Real.exp (-0.5 * ((z + H) / sz) ^ 2)) * 1000000) := by
  have hden : 2 * Real.pi * u * sy * sz ≠ 0 :=
    mul_ne_zero (mul_ne_zero (mul_ne_zero
      (mul_ne_zero two_ne_zero Real.pi_ne_zero) hu) hsy.ne') hsz.ne'
  unfold gaussian_plume
  rw [if_neg (not_le.mpr hx), hd, Option.some_bind]
  dsimp only
  rw [if_pos (And.intro hsy hsz), if_neg hden, if_pos hsy, if_pos hsz, if_pos hsz]

/-- Evaluation of `gaussian_plume` with zero wind: the division by
`2π·u·σy·σz = 0` raises `ZeroDivisionError`. -/
theorem gaussian_plume_zero_wind {Q H x y z sy sz : ℝ} {sc : SC}
    (hx : 0 < x)
    (hd : calculate_dispersion_coefficients x sc = some (sy, sz))
    (hsy : 0 < sy) (hsz : 0 < sz) :
    gaussian_plume Q 0 H x y z sc = none := by
  unfold gaussian_plume
  rw [if_neg (not_le.mpr hx), hd, Option.some_bind]
  dsimp only
  rw [if_pos (And.intro hsy hsz), if_pos (by ring)]

/-! ### Burn schedules: timestamps, conflicts, objective function -/

/-- Python `timedelta.seconds` for a duration of `d` seconds: the
duration is normalised into whole days plus a seconds-of-day part in
`[0, 86400)`, and the (integer) seconds component is returned.  Note
this drops whole days and is NOT the total length of the duration. -/
def pySeconds (d : ℚ) : ℤ := ⌊d - 86400 * ((⌊d / 86400⌋ : ℤ) : ℚ)⌋

/-- A `datetime`'s `.hour` field, for a timestamp of `t` seconds
since midnight of some epoch day. -/
def hourOf (t : ℚ) : ℤ := ⌊t / 3600⌋ % 24

/-- One burn dict `{'time': ..., 'lat': ..., 'lng': ..., 'acres': ...}`. -/
structure Burn where
  time : ℚ
  lat : ℝ
  lng : ℝ
  acres : ℝ

/-- Python `math.atan2 y x`. -/
noncomputable def atan2 (y x : ℝ) : ℝ :=
  if 0 < x then Real.arctan (y / x)
  else if x < 0 ∧ 0 ≤ y then Real.arctan (y / x) + Real.pi
  else if x < 0 then Real.arctan (y / x) - Real.pi
  else if 0 < y then Real.pi / 2
  else if y < 0 then -(Real.pi / 2)
  else 0

/-- `SimulatedAnnealingVerifier.haversine_distance` (km), spherical
Earth radius R = 6371 km, `math.radians x = x·π/180`. -/
noncomputable def haversine_distance (lat1 lng1 lat2 lng2 : ℝ) : ℝ :=
  let phi1 := lat1 * Real.pi / 180
  let phi2 := lat2 * Real.pi / 180
  let delta_phi := (lat2 - lat1) * Real.pi / 180
  let delta_lambda := (lng2 - lng1) * Real.pi / 180
  let a := Real.sin (delta_phi / 2) ^ 2
    + Real.cos phi1 * Real.cos phi2 * Real.sin (delta_lambda / 2) ^ 2
  6371 * (2 * atan2 (Real.sqrt a) (Real.sqrt (1 - a)))

/-- `SimulatedAnnealingVerifier.burns_conflict`: note the time
difference is `abs(timedelta.seconds / 3600)`, i.e. built from the
day-normalised seconds component, not from the total duration. -/
noncomputable def burns_conflict (burn1 burn2 : Burn) : Prop :=
  |((pySeconds (burn1.time - burn2.time) : ℚ)) / 3600| < 2 ∧
    haversine_distance burn1.lat burn1.lng burn2.lat burn2.lng < 10

/-- The conflict double loop of `objective_function`
(`for i; for j > i; if conflict: score -= 100`). -/
noncomputable def conflictPenalty : List Burn → ℤ
  | [] => 0
  | b :: rest =>
    (rest.map fun b2 => if burns_conflict b b2 then (-100 : ℤ) else 0).sum
      + conflictPenalty rest

/-- The timing reward of `objective_function`:
`+20 if 6 <= hour <= 10, elif 10 <= hour <= 14: +10, else -10`. -/
def timingScore (b : Burn) : ℤ :=
  let hour := hourOf b.time
  if 6 ≤ hour ∧ hour ≤ 10 then 20
  else if 10 ≤ hour ∧ hour ≤ 14 then 10
  else -10

/-- The spacing reward of `objective_function`: for each consecutive
pair of sorted times, `+15` when `(times[i] - times[i-1]).seconds /
3600 >= 2`. -/
def gapBonus (ts : List ℚ) : ℤ :=
  ((ts.zip ts.tail).map fun p =>
    if (2 : ℚ) ≤ ((pySeconds (p.2 - p.1) : ℚ)) / 3600 then (15 : ℤ) else 0).sum

/-- `SimulatedAnnealingVerifier.objective_function`. -/
noncomputable def objective_function (schedule : List Burn) : ℤ :=
  conflictPenalty schedule
    + (schedule.map timingScore).sum
    + (if 1 < schedule.length then
        gapBonus (List.insertionSort (· ≤ ·) (schedule.map Burn.time))
      else 0)

/-! ### Evaluation lemmas for times and distances -/

theorem pySeconds_intCast (n : ℤ) : pySeconds (n : ℚ) = n % 86400 := by
  unfold pySeconds
  have h : ((86400 : ℚ)) = ((86400 : ℕ) : ℚ) := by norm_num
  rw [h, Rat.floor_intCast_div_natCast]
  have h2 : ((n : ℚ)) - ((86400 : ℕ) : ℚ) * (((n / ((86400 : ℕ) : ℤ)) : ℤ) : ℚ)
      = (((n - 86400 * (n / 86400) : ℤ)) : ℚ) := by push_cast; ring
  rw [h2, Int.floor_intCast]
  omega

theorem atan2_zero_one : atan2 0 1 = 0 := by
  unfold atan2
  rw [if_pos one_pos]
  simp [Real.arctan_zero]

/-- The haversine distance between a point and itself is 0. -/
theorem haversine_self (lat lng : ℝ) : haversine_distance lat lng lat lng = 0 := by
  unfold haversine_distance
  simp only [sub_self, zero_mul, zero_div, Real.sin_zero, ne_eq,
    OfNat.ofNat_ne_zero, not_false_eq_true, zero_pow, mul_zero, add_zero,
    Real.sqrt_zero, sub_zero, Real.sqrt_one, atan2_zero_one]

theorem hourOf_eval {t : ℚ} {n : ℤ} (h : t / 3600 = (n : ℚ)) :
    hourOf t = n % 24 := by
  unfold hourOf
  rw [h, Int.floor_intCast]

/-- The first two burns of the repository's own verification
scenario (08:00 and 09:00 on the same day, identical coordinates to
keep the haversine part of the conflict test trivially satisfied). -/
noncomputable def burnA : Burn := ⟨28800, 38.5, -121.7, 100⟩

/-- See `burnA`: one hour later at the same location. -/
noncomputable def burnB : Burn := ⟨32400, 38.5, -121.7, 150⟩

theorem burnAB_seconds : pySeconds (burnA.time - burnB.time) = 82800 := by
  rw [show burnA.time - burnB.time = ((-3600 : ℤ) : ℚ) by norm_num [burnA, burnB],
    pySeconds_intCast]
  decide

theorem burnBA_seconds : pySeconds (burnB.time - burnA.time) = 3600 := by
  rw [show burnB.time - burnA.time = ((3600 : ℤ) : ℚ) by norm_num [burnA, burnB],
    pySeconds_intCast]
  decide

/-- C2: `burns_conflict` does NOT implement "absolute time difference
< 2 h and haversine distance < 10 km": for `burnA` at 08:00 and
`burnB` at 09:00 at the same location, the true absolute difference
is 1 h and the distance is 0 km, yet the code reports no conflict
(its `timedelta.seconds`-based difference evaluates to 23 h). -/
theorem burns_conflict_misses_one_hour_pair :
    ¬ burns_conflict burnA burnB ∧
    |burnA.time - burnB.time| / 3600 < 2 ∧
    haversine_distance burnA.lat burnA.lng burnB.lat burnB.lng < 10 := by
  refine ⟨?_, ?_, ?_⟩
  · rintro ⟨h1, -⟩
    rw [burnAB_seconds] at h1
    norm_num at h1
  · norm_num [burnA, burnB]
  · show haversine_distance 38.5 (-121.7) 38.5 (-121.7) < 10
    rw [haversine_self]
    norm_num

/-- C5: conflict detection is NOT symmetric: with the events of
`burns_conflict_misses_one_hour_pair`, passing the later burn first
reports a conflict while the opposite order does not. -/
theorem burns_conflict_asymmetric :
    burns_conflict burnB burnA ∧ ¬ burns_conflict burnA burnB := by
  constructor
  · refine ⟨?_, ?_⟩
    · rw [burnBA_seconds]
      norm_num
    · show haversine_distance 38.5 (-121.7) 38.5 (-121.7) < 10
      rw [haversine_self]
      norm_num
  · rintro ⟨h1, -⟩
    rw [burnAB_seconds] at h1
    norm_num at h1

/-- A single burn whose hour-of-day is exactly 10 (10:00). -/
noncomputable def burnH10 : Burn := ⟨36000, 38.5, -121.7, 100⟩

/-- A single burn whose hour-of-day is exactly 14 (14:00). -/
noncomputable def burnH14 : Burn := ⟨50400, 38.5, -121.7, 100⟩

theorem hourOf_burnH10 : hourOf burnH10.time = 10 := by
  rw [hourOf_eval (show burnH10.time / 3600 = ((10 : ℤ) : ℚ) by norm_num [burnH10])]
  decide

theorem hourOf_burnH14 : hourOf burnH14.time = 14 := by
  rw [hourOf_eval (show burnH14.time / 3600 = ((14 : ℤ) : ℚ) by norm_num [burnH14])]
  decide

/-- C4 counterexample: a schedule consisting of one burn at hour 10
scores 20 (the morning bonus — the source bands are inclusive,
`6 <= hour <= 10`), not the 10 the claim predicts; and one burn at
hour 14 scores 10 (`10 <= hour <= 14`), not the −10 the claim
predicts. -/
theorem objective_function_hour10_hour14 :
    objective_function [burnH10] = 20 ∧ objective_function [burnH10] ≠ 10 ∧
    objective_function [burnH14] = 10 ∧ objective_function [burnH14] ≠ -10 := by
  have h10 : objective_function [burnH10] = 20 := by
    simp [objective_function, conflictPenalty, timingScore, hourOf_burnH10]
  have h14 : objective_function [burnH14] = 10 := by
    simp [objective_function, conflictPenalty, timingScore, hourOf_burnH14]
  exact ⟨h10, by rw [h10]; norm_num, h14, by rw [h14]; norm_num⟩

/-- C4 (amended): for a single-event schedule the objective adds 20
when the event's hour lies in the inclusive band [6,10], otherwise
adds 10 when it lies in the inclusive band [10,14] (so effectively
hours 11-14), and otherwise subtracts 10; in particular hour 10
receives the morning bonus 20 and hour 14 the midday bonus 10. -/
theorem objective_function_timing_bands (t : ℚ) (lat lng acres : ℝ) :
    objective_function [⟨t, lat, lng, acres⟩] =
      if 6 ≤ hourOf t ∧ hourOf t ≤ 10 then 20
      else if 10 ≤ hourOf t ∧ hourOf t ≤ 14 then 10
      else -10 := by
  simp [objective_function, conflictPenalty, timingScore]

/-- A burn at 06:00 (hour 6). -/
noncomputable def burnE1 : Burn := ⟨21600, 38.5, -121.7, 100⟩

/-- A burn exactly 25 hours after `burnE1` (07:00 the next day). -/
noncomputable def burnE2 : Burn := ⟨111600, 38.5, -121.7, 150⟩

theorem burnE_seconds : pySeconds (burnE1.time - burnE2.time) = 82800 := by
  rw [show burnE1.time - burnE2.time = ((-90000 : ℤ) : ℚ) by
    norm_num [burnE1, burnE2], pySeconds_intCast]
  decide

theorem not_conflict_E : ¬ burns_conflict burnE1 burnE2 := by
  rintro ⟨h1, -⟩
  rw [burnE_seconds] at h1
  norm_num at h1

theorem timingScore_burnE1 : timingScore burnE1 = 20 := by
  simp only [timingScore]
  rw [hourOf_eval (show burnE1.time / 3600 = ((6 : ℤ) : ℚ) by norm_num [burnE1])]
  decide

theorem timingScore_burnE2 : timingScore burnE2 = 20 := by
  simp only [timingScore]
  rw [hourOf_eval (show burnE2.time / 3600 = ((31 : ℤ) : ℚ) by norm_num [burnE2])]
  decide

/-- C8: with two non-conflicting burns 25 hours apart (hours 6 and 7,
timing bonus 20 + 20), the claim predicts the +15 spacing bonus for
the ≥ 2 h gap, i.e. a score of 55; the code computes
`(times[1] - times[0]).seconds / 3600 = 1` (the 25 h duration
normalises to 1 day + 3600 s and `.seconds` drops the day), so no
bonus is added and the score is 40. -/
theorem objective_function_25h_gap_no_bonus :
    objective_function [burnE1, burnE2] = 40 ∧
    objective_function [burnE1, burnE2] ≠ 55 := by
  have hc : conflictPenalty [burnE1, burnE2] = 0 := by
    simp only [conflictPenalty, List.map_cons, List.map_nil, List.sum_cons,
      List.sum_nil, add_zero]
    rw [if_neg not_conflict_E]
  have hsort : List.insertionSort (· ≤ ·) ([burnE1, burnE2].map Burn.time)
      = [(21600 : ℚ), 111600] := by
    norm_num [List.insertionSort, List.orderedInsert, burnE1, burnE2]
  have hgap : gapBonus [(21600 : ℚ), 111600] = 0 := by
    unfold gapBonus
    simp only [List.tail_cons, List.zip_cons_cons, List.zip_nil_right,
      List.map_cons, List.map_nil, List.sum_cons, List.sum_nil, add_zero]
    rw [show ((111600 : ℚ)) - 21600 = ((90000 : ℤ) : ℚ) by norm_num,
      pySeconds_intCast, show ((90000 : ℤ)) % 86400 = 3600 by decide]
    norm_num
  have h : objective_function [burnE1, burnE2] = 40 := by
    unfold objective_function
    rw [hc, if_pos (by norm_num : 1 < ([burnE1, burnE2]).length), hsort, hgap]
    simp only [List.map_cons, List.map_nil, List.sum_cons, List.sum_nil,
      timingScore_burnE1, timingScore_burnE2]
    norm_num
  exact ⟨h, by rw [h]; norm_num⟩

/-! ### Neighbor generation, modelled at the level of Python references

A Python list of dicts is a list of references into a store of burn
dicts.  `schedule.copy()` copies only the reference list;
`neighbor[idx] = neighbor[idx].copy()` allocates a fresh dict (a new
store cell) and replaces the reference at `idx`; the shifted time is
then written to the fresh dict only.  This lets the no-mutation claim
be stated and checked rather than hold vacuously. -/

/-- `SimulatedAnnealingVerifier.generate_neighbor`, with the random
draws (`idx` from `randint`, `hours_shift` from `uniform(-2, 2)`)
passed explicitly; `timedelta(hours=h)` is `3600·h` seconds. -/
def generate_neighbor (store : List Burn) (schedule : List ℕ) (idx : ℕ)
    (hours_shift : ℚ) : List Burn × List ℕ :=
  match schedule.get? idx with
  | none => (store, schedule)
  | some r =>
    match store.get? r with
    | none => (store, schedule)
    | some b =>
      (store ++ [{ b with time := b.time + 3600 * hours_shift }],
        schedule.set idx store.length)

/-- C9: `generate_neighbor` preserves the schedule length, never
changes any store cell referenced by the input schedule (the
original events keep all their field values), and maps an empty
schedule to itself unchanged. -/
theorem generate_neighbor_frame :
    (∀ (store : List Burn) (schedule : List ℕ) (idx : ℕ) (shift : ℚ),
        idx < schedule.length → (∀ r ∈ schedule, r < store.length) →
        ((generate_neighbor store schedule idx shift).2.length = schedule.length ∧
          ∀ r ∈ schedule,
            (generate_neighbor store schedule idx shift).1.get? r = store.get? r))
    ∧ (∀ (store : List Burn) (idx : ℕ) (shift : ℚ),
        generate_neighbor store [] idx shift = (store, [])) := by
  constructor
  · intro store schedule idx shift hidx hvalid
    obtain ⟨r, hr⟩ : ∃ r, schedule.get? idx = some r :=
      ⟨_, List.get?_eq_get hidx⟩
    have hrlt : r < store.length := hvalid r (List.get?_mem hr)
    obtain ⟨b, hb⟩ : ∃ b, store.get? r = some b :=
      ⟨_, List.get?_eq_get hrlt⟩
    unfold generate_neighbor
    rw [hr]
    dsimp only
    rw [hb]
    dsimp only
    exact ⟨List.length_set .., fun s hs => List.get?_append (hvalid s hs)⟩
  · intro store idx shift
    rfl

/-- Witness for `generate_neighbor_frame` on a two-burn store. -/
theorem generate_neighbor_frame_witness :
    ((0 : ℕ) < ([0, 1] : List ℕ).length ∧
      (∀ r ∈ ([0, 1] : List ℕ), r < ([burnA, burnB] : List Burn).length)) ∧
    ((generate_neighbor [burnA, burnB] [0, 1] 0 1).2.length
        = ([0, 1] : List ℕ).length ∧
      ∀ r ∈ ([0, 1] : List ℕ),
        (generate_neighbor [burnA, burnB] [0, 1] 0 1).1.get? r
          = ([burnA, burnB] : List Burn).get? r) :=
  ⟨⟨by norm_num, by decide⟩,
    generate_neighbor_frame.1 [burnA, burnB] [0, 1] 0 1 (by norm_num) (by decide)⟩

/-! ### The simulated-annealing loop

`simulated_annealing` is modelled as a deterministic transition
system parameterised by the per-iteration neighbor generator `nb`
(the composite effect of `generate_neighbor`'s random draws) and the
per-iteration uniform draw `rnd` of `random.random()`, both indexed
by the iteration counter.  Since `generate_neighbor` never mutates
the cells reachable from its input (see `generate_neighbor_frame`),
schedules can be carried as plain values here. -/

/-- The loop state: `current_schedule`, `current_score`,
`best_schedule`, `best_score`, `temperature`, `iterations`. -/
structure SAState where
  current : List Burn
  currentScore : ℤ
  best : List Burn
  bestScore : ℤ
  temp : ℝ
  iters : ℕ

/-- The acceptance part of one loop iteration: greedy-accept a
better neighbor, otherwise accept with Metropolis probability
`exp(delta / temperature)` compared against the uniform draw. -/
noncomputable def saMove (nb : ℕ → List Burn → List Burn) (rnd : ℕ → ℝ)
    (s : SAState) : List Burn × ℤ :=
  let neighbor := nb s.iters s.current
  let neighbor_score := objective_function neighbor
  if s.currentScore < neighbor_score then (neighbor, neighbor_score)
  else if rnd s.iters < Real.exp (((neighbor_score - s.currentScore : ℤ) : ℝ) / s.temp)
    then (neighbor, neighbor_score)
  else (s.current, s.currentScore)

/-- One full iteration of the `while` loop: acceptance, best-update,
cooling (`* 0.995`), iteration count. -/
noncomputable def saStep (nb : ℕ → List Burn → List Burn) (rnd : ℕ → ℝ)
    (s : SAState) : SAState :=
  let m := saMove nb rnd s
  let newBest : List Burn × ℤ :=
    if s.bestScore < m.2 then (m.1, m.2) else (s.best, s.bestScore)
  { current := m.1, currentScore := m.2, best := newBest.1,
    bestScore := newBest.2, temp := s.temp * 0.995, iters := s.iters + 1 }

/-- The `while temperature > min_temp and iterations < 10000` loop,
with explicit fuel (the source's iteration cap bounds the number of
iterations, so fuel 10000 is exact). -/
noncomputable def saRun (nb : ℕ → List Burn → List Burn) (rnd : ℕ → ℝ) :
    ℕ → SAState → SAState
  | 0, s => s
  | n + 1, s =>
    if 1 < s.temp ∧ s.iters < 10000 then saRun nb rnd n (saStep nb rnd s) else s

/-- `SimulatedAnnealingVerifier.simulated_annealing`:
`initial_temp = 1000`, `cooling_rate = 0.995`, `min_temp = 1`;
returns `(best_schedule, best_score, iterations)`. -/
noncomputable def simulated_annealing (nb : ℕ → List Burn → List Burn)
    (rnd : ℕ → ℝ) (initial_schedule : List Burn) : List Burn × ℤ × ℕ :=
  let s0 : SAState :=
    { current := initial_schedule,
      currentScore := objective_function initial_schedule,
      best := initial_schedule,
      bestScore := objective_function initial_schedule,
      temp := 1000, iters := 0 }
  let sf := saRun nb rnd 10000 s0
  (sf.best, sf.bestScore, sf.iters)

theorem saStep_bestScore_le (nb : ℕ → List Burn → List Burn) (rnd : ℕ → ℝ)
    (s : SAState) : s.bestScore ≤ (saStep nb rnd s).bestScore := by
  unfold saStep
  dsimp only
  split_ifs with h
  · exact h.le
  · exact le_rfl

theorem saRun_bestScore_le (nb : ℕ → List Burn → List Burn) (rnd : ℕ → ℝ)
    (n : ℕ) (s : SAState) : s.bestScore ≤ (saRun nb rnd n s).bestScore := by
  induction n generalizing s with
  | zero => exact le_rfl
  | succ n ih =>
    unfold saRun
    split_ifs with h
    · exact le_trans (saStep_bestScore_le nb rnd s) (ih (saStep nb rnd s))
    · exact le_rfl

/-- C7: for every neighbor stream, every random stream and every
initial schedule, the returned `best_score` is at least the
objective score of the initial schedule; and along the annealing
loop the recorded best score never decreases (running any further
number of iterations from any state can only raise `bestScore`). -/
theorem simulated_annealing_best_monotone (nb : ℕ → List Burn → List Burn)
    (rnd : ℕ → ℝ) (initial_schedule : List Burn) :
    objective_function initial_schedule
        ≤ (simulated_annealing nb rnd initial_schedule).2.1
    ∧ ∀ (n : ℕ) (s : SAState),
        s.bestScore ≤ (saRun nb rnd n s).bestScore := by
  refine ⟨?_, fun n s => saRun_bestScore_le nb rnd n s⟩
  unfold simulated_annealing
  exact saRun_bestScore_le nb rnd 10000 _

theorem saMove_score (nb : ℕ → List Burn → List Burn) (rnd : ℕ → ℝ)
    (s : SAState) (h : s.currentScore = objective_function s.current) :
    (saMove nb rnd s).2 = objective_function (saMove nb rnd s).1 := by
  unfold saMove
  dsimp only
  split_ifs <;> simp [h]

theorem saStep_consistent (nb : ℕ → List Burn → List Burn) (rnd : ℕ → ℝ)
    (s : SAState)
    (hc : s.currentScore = objective_function s.current)
    (hb : s.bestScore = objective_function s.best) :
    (saStep nb rnd s).currentScore = objective_function (saStep nb rnd s).current
    ∧ (saStep nb rnd s).bestScore = objective_function (saStep nb rnd s).best := by
  have hm := saMove_score nb rnd s hc
  unfold saStep
  dsimp only
  split_ifs with h
  · exact ⟨hm, hm⟩
  · exact ⟨hm, hb⟩

theorem saRun_consistent (nb : ℕ → List Burn → List Burn) (rnd : ℕ → ℝ)
    (n : ℕ) (s : SAState)
    (hc : s.currentScore = objective_function s.current)
    (hb : s.bestScore = objective_function s.best) :
    (saRun nb rnd n s).currentScore
        = objective_function (saRun nb rnd n s).current
    ∧ (saRun nb rnd n s).bestScore
        = objective_function (saRun nb rnd n s).best := by
  induction n generalizing s with
  | zero => exact ⟨hc, hb⟩
  | succ n ih =>
    unfold saRun
    split_ifs with h
    · obtain ⟨h1, h2⟩ := saStep_consistent nb rnd s hc hb
      exact ih (saStep nb rnd s) h1 h2
    · exact ⟨hc, hb⟩

/-- C10: the result pair of the optimizer is consistent: re-scoring
the returned best schedule reproduces the returned best score. -/
theorem simulated_annealing_result_consistent (nb : ℕ → List Burn → List Burn)
    (rnd : ℕ → ℝ) (initial_schedule : List Burn) :
    (simulated_annealing nb rnd initial_schedule).2.1
      = objective_function (simulated_annealing nb rnd initial_schedule).1 := by
  unfold simulated_annealing
  exact (saRun_consistent nb rnd 10000 _ rfl rfl).2

/-! ### Unit scaling and wind-speed handling of the plume model -/

/-- C1 counterexample: at Q = 1, u = 1, H = 0, x = 1000 m, y = z = 0,
class F (σy = 34, σz = 14.35), `gaussian_plume` does NOT return the
bare value `Q/(2π·u·σy·σz) · crosswind · vertical_sum` — it returns
that value multiplied by `1e6` (the internal `# Convert to µg/m³`
scaling), and the bare value is positive, so the two differ. -/
theorem gaussian_plume_not_unit_agnostic :
    gaussian_plume 1 1 0 1000 0 0 SC.F ≠
      some (1 / (2 * Real.pi * 1 * 34 * 14.35) * Real.exp (-0.5 * ((0:ℝ) / 34) ^ 2)
        * (Real.exp (-0.5 * (((0:ℝ) - 0) / 14.35) ^ 2)
          + Real.exp (-0.5 * (((0:ℝ) + 0) / 14.35) ^ 2))) := by
  rw [gaussian_plume_eval (by norm_num) (by norm_num) calcDisp_F_1000
    (by norm_num) (by norm_num)]
  intro h
  have h2 := Option.some.inj h
  have hv : 0 < (1:ℝ) / (2 * Real.pi * 1 * 34 * 14.35)
      * Real.exp (-0.5 * ((0:ℝ) / 34) ^ 2)
      * (Real.exp (-0.5 * (((0:ℝ) - 0) / 14.35) ^ 2)
        + Real.exp (-0.5 * (((0:ℝ) + 0) / 14.35) ^ 2)) := by positivity
  nlinarith [h2, hv]

/-- C1 (amended): for every query with x > 0, u > 0 and successfully
computed, positive dispersion coefficients, `gaussian_plume` returns
exactly `Q/(2π·u·σy·σz) · exp(−½(y/σy)²) ·
(exp(−½((z−H)/σz)²) + exp(−½((z+H)/σz)²))` multiplied by the
internal unit-conversion factor `1e6` (µg/m³ scaling applied inside
the component). -/
theorem gaussian_plume_formula_scaled {Q u H x y z sy sz : ℝ} {sc : SC}
    (hx : 0 < x) (hu : 0 < u)
    (hd : calculate_dispersion_coefficients x sc = some (sy, sz))
    (hsy : 0 < sy) (hsz : 0 < sz) :
    gaussian_plume Q u H x y z sc =
      some (Q / (2 * Real.pi * u * sy * sz) * Real.exp (-0.5 * (y / sy) ^ 2)
        * (Real.exp (-0.5 * ((z - H) / sz) ^ 2)
          + Real.exp (-0.5 * ((z + H) / sz) ^ 2)) * 1000000) :=
  gaussian_plume_eval hx hu.ne' hd hsy hsz

/-- Witness for `gaussian_plume_formula_scaled` at the class-F query
used throughout. -/
theorem gaussian_plume_formula_scaled_witness :
    (0:ℝ) < 1000 ∧ (0:ℝ) < 1 ∧
    calculate_dispersion_coefficients 1000 SC.F = some (34, 14.35) ∧
    (0:ℝ) < 34 ∧ (0:ℝ) < 14.35 ∧
    gaussian_plume 1 1 0 1000 0 0 SC.F =
      some (1 / (2 * Real.pi * 1 * 34 * 14.35) * Real.exp (-0.5 * ((0:ℝ) / 34) ^ 2)
        * (Real.exp (-0.5 * (((0:ℝ) - 0) / 14.35) ^ 2)
          + Real.exp (-0.5 * (((0:ℝ) + 0) / 14.35) ^ 2)) * 1000000) :=
  ⟨by norm_num, by norm_num, calcDisp_F_1000, by norm_num, by norm_num,
    gaussian_plume_formula_scaled (by norm_num) (by norm_num) calcDisp_F_1000
      (by norm_num) (by norm_num)⟩

/-- C6 counterexample: with wind speed u = −1 (so u ≤ 0) and an
otherwise regular query, `gaussian_plume` returns a value — it
raises no error of any kind, contradicting "never returns a
value". -/
theorem gaussian_plume_negative_wind_returns_value :
    (gaussian_plume 1 (-1) 0 1000 0 0 SC.F).isSome = true := by
  rw [gaussian_plume_eval (by norm_num) (by norm_num) calcDisp_F_1000
    (by norm_num) (by norm_num)]
  rfl

/-- C6 (amended): `gaussian_plume` performs no wind-speed
validation.  For a query with x > 0 and successfully computed,
positive dispersion coefficients: with u < 0 the function silently
returns a concentration value, and with u = 0 it fails with a
`ZeroDivisionError` from the division by `2π·u·σy·σz` — in neither
case is a `DomainError` raised (none exists in the code). -/
theorem gaussian_plume_no_wind_validation {Q H x y z sy sz : ℝ} {sc : SC}
    (hx : 0 < x)
    (hd : calculate_dispersion_coefficients x sc = some (sy, sz))
    (hsy : 0 < sy) (hsz : 0 < sz) :
    (∀ u : ℝ, u < 0 → (gaussian_plume Q u H x y z sc).isSome = true)
    ∧ gaussian_plume Q 0 H x y z sc = none := by
  constructor
  · intro u hu
    rw [gaussian_plume_eval hx hu.ne hd hsy hsz]
    rfl
  · exact gaussian_plume_zero_wind hx hd hsy hsz

/-- Witness for `gaussian_plume_no_wind_validation` at the class-F
query with u = −1 and u = 0. -/
theorem gaussian_plume_no_wind_validation_witness :
    (0:ℝ) < 1000 ∧
    calculate_dispersion_coefficients 1000 SC.F = some (34, 14.35) ∧
    (0:ℝ) < 34 ∧ (0:ℝ) < 14.35 ∧
    (gaussian_plume 2 (-1) 0 1000 0 0 SC.F).isSome = true ∧
    gaussian_plume 2 0 0 1000 0 0 SC.F = none :=
  ⟨by norm_num, calcDisp_F_1000, by norm_num, by norm_num,
    (gaussian_plume_no_wind_validation (by norm_num) calcDisp_F_1000
      (by norm_num) (by norm_num)).1 (-1) (by norm_num),
    (gaussian_plume_no_wind_validation (by norm_num) calcDisp_F_1000
      (by norm_num) (by norm_num)).2⟩
